import Mathlib

/-!
Verification of `my-go-wasm-app/app/api/calculate/route.ts` together with the
Go Wasm module (`main.go`, compiled to `public/main.go.wasm`; its source is
embedded in the repository next to the route).

The embedding follows the source closely:

* `JSValue` models JavaScript values at the granularity the code inspects
  them (`typeof` checks in the route, `js.Value.Type` / `js.Value.Int` in Go).
  Numbers are modelled as rationals.  The two numeric conversions of the
  wasm bridge are modelled explicitly: `js.Value.Int` is truncation toward
  zero followed by the saturating float-to-int64 conversion of `GOARCH=wasm`
  (`satInt64`), and `js.ValueOf` on a Go `int` passes through float64, i.e.
  rounds to 53 significant bits, nearest-ties-to-even (`float64RoundInt`).
* `«安全にIntに変換»` and `add` embed the Go module (`main.go` lines shown in
  `loadmap.md` and in the source next to `route.ts`); Go `int` addition on
  `GOARCH=wasm` is 64-bit two's-complement, embedded as `wrap64`.
* `initializeWasm` embeds the initialization sequence (route.ts lines 46-122)
  as a deterministic function of the module-level state (`Globals`) and an
  environment `InitEnv` describing the outcome of each external step
  (file reads, script execution, instantiation, and the tick-indexed
  availability of `g.goAdd` during the readiness poll).  The readiness poll
  (lines 90-111) is `waitForGoAdd`: one tick per `setInterval` firing, 50 ms
  apart, so a settlement at tick `t` is `t * 50` ms of wall-clock wait.
* `POST` embeds the request handler (lines 125-182); the exported function is
  a parameter because the handler calls whatever `g.goAdd` currently holds.
  The trace records the final module-level state and whether `g.goAdd` was
  invoked.
-/

/-- JavaScript values, at the granularity inspected by the route handler and
by the Go bridge: a number (rational model of float64), a string, a boolean,
`null`, `undefined`, or some other object. -/
inductive JSValue where
  | num (q : ℚ)
  | str (s : String)
  | boolean (b : Bool)
  | null
  | undefined
  | object
deriving DecidableEq

/-- The result of JavaScript `typeof` / Go `js.Value.Type` on a `JSValue`. -/
inductive JSType where
  | undefined
  | null
  | boolean
  | number
  | string
  | object
  | function
deriving DecidableEq

/-- `js.Value.Type` (and the route's `typeof v === 'number'` check agrees on
the `number` case). -/
def JSValue.jsTypeOf : JSValue → JSType
  | .num _ => .number
  | .str _ => .string
  | .boolean _ => .boolean
  | .null => .null
  | .undefined => .undefined
  | .object => .object

/-- The route's `typeof v === 'number'` check. -/
def JSValue.isNumber : JSValue → Bool
  | .num _ => true
  | _ => false

/-- The numeric payload of a JS number (`0` placeholder otherwise; the Go code
only reads it behind the `js.TypeNumber` guard). -/
def JSValue.numVal : JSValue → ℚ
  | .num q => q
  | _ => 0

/-- Truncation toward zero on ℚ: the conversion performed by `js.Value.Int`
(`int(v.float())` in Go) for values in the convertible range. -/
def ratTrunc (q : ℚ) : Int := q.num.tdiv (q.den : Int)

/-- 64-bit two's-complement wrap-around: Go `int` addition on `GOARCH=wasm`. -/
def wrap64 (n : Int) : Int :=
  (n + 9223372036854775808) % 18446744073709551616 - 9223372036854775808

/-- The saturating float-to-int64 conversion of `GOARCH=wasm`
(`i64.trunc_sat_f64_s`, which the Go wasm backend emits for
`int(v.Float())`): a truncated value beyond the int64 range clamps to the
nearest bound. -/
def satInt64 (n : Int) : Int :=
  if n < -9223372036854775808 then -9223372036854775808
  else if 9223372036854775807 < n then 9223372036854775807
  else n

/-- Round `a` to the nearest multiple of `p`, ties to the even multiple. -/
def roundScaled (a p : Nat) : Nat :=
  let q := a / p
  let r := a % p
  if p < 2 * r ∨ (2 * r = p ∧ q % 2 = 1) then (q + 1) * p else q * p

/-- Scale search for `float64RoundInt`: double the scale `p` until the
significand `a / p` fits in 53 bits, then round at that scale.  The fuel
argument only bounds the recursion; the caller passes `a` itself, far more
than the at most `log2 a` doublings needed. -/
def float64RoundIntAux (a : Nat) : Nat → Nat → Nat
  | p, 0 => roundScaled a p
  | p, fuel + 1 =>
    if a / p < 9007199254740992 then roundScaled a p
    else float64RoundIntAux a (2 * p) fuel

/-- The float64 value of a Go `int`, as produced by `js.ValueOf` on
`GOARCH=wasm` (int64 → float64, round to nearest, ties to even): exact for
|n| ≤ 2^53, otherwise rounded to 53 significant bits. -/
def float64RoundInt (n : Int) : Int :=
  let a := n.natAbs
  if a ≤ 9007199254740992 then n
  else
    let m := float64RoundIntAux a 2 a
    if n < 0 then -(m : Int) else (m : Int)

/-- Go helper `安全にIntに変換` (main.go): returns `(0, false)` unless the
value's type is `js.TypeNumber`, otherwise `(val.Int(), true)`, where
`val.Int()` is `int(v.Float())` — truncation toward zero with wasm's
saturation at the int64 bounds. -/
def «安全にIntに変換» (val : JSValue) : Int × Bool :=
  if val.jsTypeOf ≠ JSType.number then (0, false)
  else (satInt64 (ratTrunc val.numVal), true)

/-- Go function `add` (main.go): argument-count check, then conversion of
each argument, then `js.ValueOf(arg1 + arg2)` — the wrapped int64 sum handed
back to JavaScript as a float64 number. -/
def add (args : List JSValue) : JSValue :=
  match args with
  | [a0, a1] =>
    match «安全にIntに変換» a0 with
    | (_, false) => .str "Argument 1 is not a valid integer"
    | (arg1, true) =>
      match «安全にIntに変換» a1 with
      | (_, false) => .str "Argument 2 is not a valid integer"
      | (arg2, true) => .num ((float64RoundInt (wrap64 (arg1 + arg2)) : Int) : ℚ)
  | _ => .str "Invalid number of arguments"

/-- The global binding `g.goAdd` installed by the module
(`js.Global().Set("goAdd", js.FuncOf(add))`): a two-argument JS call reaches
`add` with exactly those two arguments. -/
def goAdd (a b : JSValue) : JSValue := add [a, b]

/-- The module-level mutable state the route reads and writes: `wasmInstance`
(route.ts line 39), whether `g.Go` is defined (set by executing
`wasm_exec.js`), and whether `g.goAdd` is a function (set by the module's
`registerCallbacks`). -/
structure Globals where
  wasmInstance : Option Unit
  goDefined : Bool
  goAddDefined : Bool
deriving DecidableEq

/-- Environment for one run of `initializeWasm`: the outcome of each external
step.  `some m` means the step fails (throws/rejects) with message `m`.
`goAddAt t` tells whether `typeof g.goAdd === 'function'` holds when the
readiness poll's `setInterval` callback fires for the `t`-th time. -/
structure InitEnv where
  readScriptErr : Option String
  scriptSetsGo : Bool
  readBinaryErr : Option String
  instantiateErr : Option String
  goAddAt : Nat → Bool

/-- Outcome of `initializeWasm`: normal return, or a thrown error message. -/
inductive InitOutcome where
  | success
  | failure (msg : String)
deriving DecidableEq

/-- Trace of one run of `initializeWasm`: its outcome, the module-level state
it leaves behind, whether the bootstrap script / the binary were read in this
run, and the poll tick at which the readiness wait settled (`none` when the
wait never ran). -/
structure InitTrace where
  outcome : InitOutcome
  state : Globals
  scriptLoaded : Bool
  binaryLoaded : Bool
  pollSettleTick : Option Nat
deriving DecidableEq

/-- route.ts line 91: `const timeout = 5000`. -/
def wasmTimeoutMs : Nat := 5000

/-- route.ts line 92: `const checkIntervalMs = 50`. -/
def checkIntervalMs : Nat := 50

/-- One step per `setInterval` firing (route.ts lines 95-110): if `g.goAdd`
is a function, resolve; otherwise add 50 ms to `elapsedTime` and reject once
`elapsedTime >= timeout`.  Returns `(resolved, settlement tick)`.  The fuel
argument only bounds the recursion; `waitForGoAdd` supplies enough fuel
(101 ticks for a 5000 ms budget at 50 ms per tick, which rejects at tick 100)
that the `0` case is never reached. -/
def waitAux (present : Nat → Bool) : Nat → Nat → Nat → Bool × Nat
  | 0, tick, _ => (false, tick)
  | fuel + 1, tick, elapsed =>
    if present tick then (true, tick)
    else
      if wasmTimeoutMs ≤ elapsed + checkIntervalMs then (false, tick)
      else waitAux present fuel (tick + 1) (elapsed + checkIntervalMs)

/-- The readiness wait of route.ts lines 90-111, starting at tick 1 with
`elapsedTime = 0`. -/
def waitForGoAdd (present : Nat → Bool) : Bool × Nat :=
  waitAux present (wasmTimeoutMs / checkIntervalMs + 1) 1 0

/-- Error messages of route.ts, kept verbatim where a later branch inspects
them.  The catch block of `initializeWasm` rethrows with this prefix
(line 120), and the handler's catch block tests for it (line 171). -/
def initFailPrefix : String := "Wasm初期化失敗: "

/-- route.ts line 64: thrown when `g.Go` is still undefined after executing
the bootstrap script. -/
def msgGoMissing : String :=
  "GoコンストラクタがglobalThis上で見つかりません。wasm_exec.jsの実行に失敗した可能性があります。"

/-- route.ts line 107: the readiness-wait rejection message. -/
def msgTimeout : String :=
  "タイムアウト: \x27goAdd\x27関数の準備待機中にエラーが発生しました。Wasmモジュールの初期化に失敗した可能性があります。"

/-- `initializeWasm` (route.ts lines 46-122).  Already-initialized guard,
then: read `wasm_exec.js`, execute it (defines `g.Go` when the script is
good), check `g.Go`, read the binary, instantiate (on success `wasmInstance`
becomes non-null), start the background run, and wait for `g.goAdd`.  Every
failure is routed through the catch block, which nulls `wasmInstance` and
rethrows with `initFailPrefix`. -/
def initializeWasm (env : InitEnv) (s : Globals) : InitTrace :=
  if s.wasmInstance.isSome then
    ⟨.success, s, false, false, none⟩
  else
    match env.readScriptErr with
    | some m => ⟨.failure (initFailPrefix ++ m), { s with wasmInstance := none },
        false, false, none⟩
    | none =>
      let s1 : Globals := { s with goDefined := s.goDefined || env.scriptSetsGo }
      if s1.goDefined then
        match env.readBinaryErr with
        | some m => ⟨.failure (initFailPrefix ++ m), { s1 with wasmInstance := none },
            true, false, none⟩
        | none =>
          match env.instantiateErr with
          | some m => ⟨.failure (initFailPrefix ++ m), { s1 with wasmInstance := none },
              true, true, none⟩
          | none =>
            let s2 : Globals := { s1 with wasmInstance := some () }
            match waitForGoAdd env.goAddAt with
            | (true, t) => ⟨.success, { s2 with goAddDefined := true }, true, true, some t⟩
            | (false, t) => ⟨.failure (initFailPrefix ++ msgTimeout),
                { s2 with wasmInstance := none, goAddDefined := false }, true, true, some t⟩
      else
        ⟨.failure (initFailPrefix ++ msgGoMissing), { s1 with wasmInstance := none },
          true, false, none⟩

/-- The `.catch` handler attached to `goRuntimeInstance.run(wasmInstance)`
(route.ts lines 82-86): a background-run rejection nulls `wasmInstance`. -/
def runRejectHandler (s : Globals) : Globals := { s with wasmInstance := none }

/-- A request body as the handler sees it: `request.json()` either throws
(with some message) or yields an object whose destructuring gives the fields
`a` and `b` (`JSValue.undefined` when absent). -/
inductive RequestBody where
  | malformed (msg : String)
  | json (a b : JSValue)

/-- A `NextResponse.json` result: HTTP status and the `result` / `error` /
`details` fields of the JSON body. -/
structure ApiResponse where
  status : Nat
  result : Option JSValue
  error : Option String
  details : Option String
deriving DecidableEq

/-- route.ts line 138. -/
def msg503 : String := "Wasmモジュールが利用できません。サーバー管理者にお問い合わせください。"

/-- route.ts line 150. -/
def msg400 : String := "無効な入力です。\"a\"と\"b\"は数値である必要があります。"

/-- route.ts line 173. -/
def msg500Init : String := "Wasmモジュールの初期化に失敗しました。詳細はサーバーログをご確認ください。"

/-- route.ts line 178. -/
def msg500Generic : String := "内部サーバーエラーが発生しました。処理中に予期せぬ問題が発生しました。"

/-- JavaScript `s.startsWith(pre)`, modelled on the code-point list of the
string (the route uses it on `errorMessage` and on the result of the exported
function). -/
def strStartsWith (s pre : String) : Bool := pre.data.isPrefixOf s.data

/-- The handler's catch block (route.ts lines 166-181): a distinguished 500
when the message carries the initialization-failure prefix, a generic 500
otherwise. -/
def catchResponse (msg : String) : ApiResponse :=
  if strStartsWith msg "Wasm初期化失敗:" then ⟨500, none, some msg500Init, some msg⟩
  else ⟨500, none, some msg500Generic, some msg⟩

/-- Trace of one `POST` call: the response, the module-level state afterwards,
and whether `g.goAdd` was invoked. -/
structure PostTrace where
  response : ApiResponse
  state : Globals
  calledGoAdd : Bool
deriving DecidableEq

/-- route.ts lines 133-164: the part of the handler after the initialization
attempt — re-check readiness (503 when it fails), parse the body (a parse
failure throws into the catch block), validate the field types (400), call
`g.goAdd`, and map a result string starting with "Invalid" to 400 and
everything else to 200. -/
def postAfterInit (goAddF : JSValue → JSValue → JSValue) (s : Globals)
    (body : RequestBody) : PostTrace :=
  if s.wasmInstance.isNone || !s.goAddDefined then
    ⟨⟨503, none, some msg503, none⟩, s, false⟩
  else
    match body with
    | .malformed m => ⟨catchResponse m, s, false⟩
    | .json a b =>
      if !a.isNumber || !b.isNumber then
        ⟨⟨400, none, some msg400, none⟩, s, false⟩
      else
        match goAddF a b with
        | .str strRes =>
          if strStartsWith strRes "Invalid" then
            ⟨⟨400, none, some strRes, none⟩, s, true⟩
          else
            ⟨⟨200, some (.str strRes), none, none⟩, s, true⟩
        | other => ⟨⟨200, some other, none, none⟩, s, true⟩

/-- The `POST` handler (route.ts lines 125-182).  `goAddF` is the current
value of `g.goAdd` (the handler calls whatever the global holds; the module
installs `goAdd`).  When the readiness check of line 128 fails the handler
awaits `initializeWasm`; a throw from it lands in the catch block. -/
def POST (goAddF : JSValue → JSValue → JSValue) (env : InitEnv) (s : Globals)
    (body : RequestBody) : PostTrace :=
  if s.wasmInstance.isNone || !s.goAddDefined then
    let tr := initializeWasm env s
    match tr.outcome with
    | .failure m => ⟨catchResponse m, tr.state, false⟩
    | .success => postAfterInit goAddF tr.state body
  else
    postAfterInit goAddF s body

/-! ### Helper lemmas and concrete fixtures -/

/-- Truncation is the identity on integers. -/
theorem ratTrunc_intCast (n : ℤ) : ratTrunc (n : ℚ) = n := by
  have h1 : ((n : ℚ)).num = n := Rat.num_intCast n
  have h2 : ((n : ℚ)).den = 1 := Rat.den_intCast n
  simp only [ratTrunc, h1, h2, Nat.cast_one]
  cases n with
  | ofNat m => simp [Int.tdiv]
  | negSucc m =>
    simp [Int.tdiv]
    rw [Int.negSucc_eq]
    omega

/-- 64-bit wrap-around is the identity inside the representable range. -/
theorem wrap64_eq_self (n : Int) (h1 : -9223372036854775808 ≤ n)
    (h2 : n < 9223372036854775808) : wrap64 n = n := by
  unfold wrap64
  omega

/-- The Go conversion helper on a JS number. -/
theorem toInt_num (q : ℚ) :
    «安全にIntに変換» (.num q) = (satInt64 (ratTrunc q), true) := by
  simp [«安全にIntに変換», JSValue.jsTypeOf, JSValue.numVal]

/-- Saturation is the identity inside the int64 range. -/
theorem satInt64_eq_self (n : Int) (h1 : -9223372036854775808 ≤ n)
    (h2 : n ≤ 9223372036854775807) : satInt64 n = n := by
  unfold satInt64
  omega

/-- The int64-to-float64 conversion is exact up to 2^53. -/
theorem float64RoundInt_eq_self (n : Int) (h : n.natAbs ≤ 9007199254740992) :
    float64RoundInt n = n := by
  unfold float64RoundInt
  simp [h]

/-- The readiness wait against a never-appearing export settles, rejected, at
tick 100 (= `wasmTimeoutMs / checkIntervalMs`). -/
theorem waitForGoAdd_constFalse : waitForGoAdd (fun _ => false) = (false, 100) := by decide

/-- `postAfterInit` never changes the module-level state. -/
theorem postAfterInit_state (goAddF : JSValue → JSValue → JSValue) (s : Globals)
    (body : RequestBody) : (postAfterInit goAddF s body).state = s := by
  unfold postAfterInit
  repeat' split
  all_goals rfl

/-- An environment in which every initialization step succeeds and the export
is present from the first poll tick on. -/
def envAllOk : InitEnv := ⟨none, true, none, none, fun _ => true⟩

/-- An environment in which every step succeeds but the export never appears. -/
def envNoGoAdd : InitEnv := ⟨none, true, none, none, fun _ => false⟩

/-- An environment in which reading `wasm_exec.js` fails. -/
def envReadFail : InitEnv :=
  ⟨some "ENOENT: no such file or directory", true, none, none, fun _ => false⟩

/-- A fresh process: nothing initialized, no globals defined. -/
def freshGlobals : Globals := ⟨none, false, false⟩

/-- A fully ready module: instance present, `g.Go` and `g.goAdd` defined. -/
def readyGlobals : Globals := ⟨some (), true, true⟩

/-- A half-ready state: instance present but `g.goAdd` missing. -/
def halfGlobals : Globals := ⟨some (), true, false⟩

/-! ### Claims about the module's arithmetic (C1, C8, C9) -/

/-- C1: for numeric arguments `a`, `b` in the exactly-representable host
integer range (|a|, |b|, |a+b| ≤ 2^53, written as literals), the exported
function returns exactly `a + b`, and a `POST` on a ready module whose body
has numeric fields `a` and `b` responds 200 with `result = a + b`. -/
theorem goAdd_POST_exact_sum (a b : Int)
    (ha1 : -9007199254740992 ≤ a) (ha2 : a ≤ 9007199254740992)
    (hb1 : -9007199254740992 ≤ b) (hb2 : b ≤ 9007199254740992)
    (hs1 : -9007199254740992 ≤ a + b) (hs2 : a + b ≤ 9007199254740992)
    (env : InitEnv) (s : Globals)
    (hw : s.wasmInstance = some ()) (hg : s.goAddDefined = true) :
    goAdd (.num (a : ℚ)) (.num (b : ℚ)) = .num ((a + b : Int) : ℚ) ∧
    (POST goAdd env s (.json (.num (a : ℚ)) (.num (b : ℚ)))).response =
      ⟨200, some (.num ((a + b : Int) : ℚ)), none, none⟩ := by
  have hadd : goAdd (.num (a : ℚ)) (.num (b : ℚ)) = .num ((a + b : Int) : ℚ) := by
    simp [goAdd, add, toInt_num, ratTrunc_intCast,
      satInt64_eq_self a (by omega) (by omega),
      satInt64_eq_self b (by omega) (by omega),
      wrap64_eq_self (a + b) (by omega) (by omega),
      float64RoundInt_eq_self (a + b) (by omega)]
  refine ⟨hadd, ?_⟩
  simp [POST, postAfterInit, hw, hg, JSValue.isNumber, hadd]

/-- Witness for C1 at a = 15, b = 7 (the spec's example, result 22). -/
theorem goAdd_POST_exact_sum_witness :
    goAdd (.num ((15 : Int) : ℚ)) (.num ((7 : Int) : ℚ)) = .num ((15 + 7 : Int) : ℚ) ∧
    (POST goAdd envAllOk readyGlobals
        (.json (.num ((15 : Int) : ℚ)) (.num ((7 : Int) : ℚ)))).response =
      ⟨200, some (.num ((15 + 7 : Int) : ℚ)), none, none⟩ :=
  goAdd_POST_exact_sum 15 7 (by decide) (by decide) (by decide) (by decide)
    (by decide) (by decide) envAllOk readyGlobals rfl rfl

/-- C8: calling the exported function directly with any argument count other
than two returns the error-marked string; `add` is a total function, so it
never throws. -/
theorem add_wrongArity_errorString (args : List JSValue) (h : args.length ≠ 2) :
    add args = .str "Invalid number of arguments" := by
  unfold add
  split
  · simp at h
  · rfl

/-- Witness for C8 at a one-element argument list. -/
theorem add_wrongArity_errorString_witness :
    add [.num ((1 : Int) : ℚ)] = .str "Invalid number of arguments" :=
  add_wrongArity_errorString _ (by decide)

/-- C9 fails as stated at a = 2^60, b = 1 (both float64-exact): the module
truncates and sums to the int64 value 2^60 + 1, but `js.ValueOf` hands it
back through float64, which rounds it to 2^60 — so the returned value is not
`trunc a + trunc b`. -/
theorem add_truncates_counterexample :
    add [.num ((1152921504606846976 : Int) : ℚ), .num ((1 : Int) : ℚ)] =
      .num ((1152921504606846976 : Int) : ℚ) ∧
    ratTrunc ((1152921504606846976 : Int) : ℚ) + ratTrunc ((1 : Int) : ℚ) =
      1152921504606846977 ∧
    JSValue.num ((1152921504606846976 : Int) : ℚ) ≠
      .num ((1152921504606846977 : Int) : ℚ) :=
  ⟨by decide, by decide, by decide⟩

/-- C9 amended: the module truncates each numeric argument toward zero
(`js.Value.Int`) before summing, and when both truncations and their sum lie
in the float64-exact integer range (|·| ≤ 2^53) the result is exactly
`trunc a + trunc b`; outside that range the int64 saturation of
`js.Value.Int` and the float64 rounding of `js.ValueOf` apply.  For the
fractional inputs 1.5 and 2.5 (written `Rat.divInt 3 2` and `Rat.divInt 5 2`)
the result is 3, which is not `a + b = 4`. -/
theorem add_truncates_arguments :
    (∀ qa qb : ℚ,
      -9007199254740992 ≤ ratTrunc qa → ratTrunc qa ≤ 9007199254740992 →
      -9007199254740992 ≤ ratTrunc qb → ratTrunc qb ≤ 9007199254740992 →
      -9007199254740992 ≤ ratTrunc qa + ratTrunc qb →
      ratTrunc qa + ratTrunc qb ≤ 9007199254740992 →
      add [.num qa, .num qb] = .num ((ratTrunc qa + ratTrunc qb : Int) : ℚ)) ∧
    (add [.num (Rat.divInt 3 2), .num (Rat.divInt 5 2)] = .num ((3 : Int) : ℚ) ∧
      Rat.divInt 3 2 + Rat.divInt 5 2 ≠ ((3 : Int) : ℚ)) := by
  refine ⟨?_, by decide, ?_⟩
  · intro qa qb ha1 ha2 hb1 hb2 hs1 hs2
    simp [add, toInt_num,
      satInt64_eq_self (ratTrunc qa) (by omega) (by omega),
      satInt64_eq_self (ratTrunc qb) (by omega) (by omega),
      wrap64_eq_self (ratTrunc qa + ratTrunc qb) (by omega) (by omega),
      float64RoundInt_eq_self (ratTrunc qa + ratTrunc qb) (by omega)]
  · rw [Rat.divInt_eq_div, Rat.divInt_eq_div]
    norm_num

/-- Witness for the amended C9 at the fractional inputs 1.5 and 2.5. -/
theorem add_truncates_arguments_witness :
    add [.num (Rat.divInt 3 2), .num (Rat.divInt 5 2)] =
      .num ((ratTrunc (Rat.divInt 3 2) + ratTrunc (Rat.divInt 5 2) : Int) : ℚ) :=
  add_truncates_arguments.1 _ _ (by decide) (by decide) (by decide) (by decide)
    (by decide) (by decide)

/-! ### Claims about the initialization sequence (C7, C4, C3) -/

/-- C7: invoking `initializeWasm` while `wasmInstance` is already non-null
returns immediately with success, leaves the state untouched, reads neither
the bootstrap script nor the binary, and never starts the readiness poll. -/
theorem initializeWasm_noop_when_ready (env : InitEnv) (s : Globals)
    (h : s.wasmInstance = some ()) :
    initializeWasm env s = ⟨.success, s, false, false, none⟩ := by
  unfold initializeWasm
  rw [h]
  rfl

/-- Witness for C7: a second consecutive invocation in the ready state is
also a no-op. -/
theorem initializeWasm_noop_when_ready_witness :
    initializeWasm envAllOk readyGlobals = ⟨.success, readyGlobals, false, false, none⟩ ∧
    initializeWasm envAllOk (initializeWasm envAllOk readyGlobals).state =
      ⟨.success, readyGlobals, false, false, none⟩ := by
  have h1 := initializeWasm_noop_when_ready envAllOk readyGlobals rfl
  refine ⟨h1, ?_⟩
  rw [h1]
  exact initializeWasm_noop_when_ready envAllOk readyGlobals rfl

/-- C4: when every earlier step succeeds but the export never appears, the
initialization fails with the timeout error, clears `wasmInstance`, and the
readiness wait settles (rejected) at tick 100 — `100 * 50 = 5000` ms of
wall-clock wait, within the 5000 ms timeout plus one 50 ms poll interval. -/
theorem initializeWasm_timeout_bound (env : InitEnv) (s : Globals)
    (hs : s.wasmInstance = none)
    (h1 : env.readScriptErr = none) (h2 : env.scriptSetsGo = true)
    (h3 : env.readBinaryErr = none) (h4 : env.instantiateErr = none)
    (hnever : ∀ t, env.goAddAt t = false) :
    (initializeWasm env s).outcome = .failure (initFailPrefix ++ msgTimeout) ∧
    (initializeWasm env s).state.wasmInstance = none ∧
    (initializeWasm env s).pollSettleTick = some 100 ∧
    100 * checkIntervalMs ≤ wasmTimeoutMs + checkIntervalMs := by
  have hfun : env.goAddAt = fun _ => false := funext hnever
  refine ⟨?_, ?_, ?_, by decide⟩ <;>
    simp [initializeWasm, hs, h1, h2, h3, h4, hfun, waitForGoAdd_constFalse]

/-- Witness for C4 on a fresh process with an all-good environment whose
export never appears. -/
theorem initializeWasm_timeout_bound_witness :
    (initializeWasm envNoGoAdd freshGlobals).outcome = .failure (initFailPrefix ++ msgTimeout) ∧
    (initializeWasm envNoGoAdd freshGlobals).state.wasmInstance = none ∧
    (initializeWasm envNoGoAdd freshGlobals).pollSettleTick = some 100 ∧
    100 * checkIntervalMs ≤ wasmTimeoutMs + checkIntervalMs :=
  initializeWasm_timeout_bound envNoGoAdd freshGlobals rfl rfl rfl rfl rfl (fun _ => rfl)

/-- Every run of `initializeWasm` either returns normally or leaves
`wasmInstance` cleared: the catch block (and the timeout branch) null it on
every failure path. -/
theorem initializeWasm_success_or_reset (env : InitEnv) (s : Globals) :
    (initializeWasm env s).outcome = .success ∨
    (initializeWasm env s).state.wasmInstance = none := by
  unfold initializeWasm
  repeat' split
  all_goals try simp
  all_goals (split <;> simp)

/-- If `postAfterInit` invoked the exported function, the state it ran on was
ready: instance present and `g.goAdd` defined. -/
theorem postAfterInit_called_ready (goAddF : JSValue → JSValue → JSValue)
    (s : Globals) (body : RequestBody)
    (h : (postAfterInit goAddF s body).calledGoAdd = true) :
    s.wasmInstance = some () ∧ s.goAddDefined = true := by
  unfold postAfterInit at h
  split at h
  · simp at h
  · rename_i hcond
    rw [Bool.or_eq_true, not_or] at hcond
    obtain ⟨hA, hB⟩ := hcond
    constructor
    · cases ho : s.wasmInstance with
      | none => rw [ho] at hA; simp at hA
      | some u => cases u; rfl
    · cases hg : s.goAddDefined with
      | false => rw [hg] at hB; simp at hB
      | true => rfl

/-- If a `POST` invoked the exported function, the module-level state it ends
with (unchanged since the readiness check) was ready. -/
theorem POST_called_ready (goAddF : JSValue → JSValue → JSValue) (env : InitEnv)
    (s : Globals) (body : RequestBody)
    (h : (POST goAddF env s body).calledGoAdd = true) :
    (POST goAddF env s body).state.wasmInstance = some () ∧
    (POST goAddF env s body).state.goAddDefined = true := by
  by_cases h0 : (s.wasmInstance.isNone || !s.goAddDefined) = true
  · cases ho : (initializeWasm env s).outcome with
    | failure m => simp [POST, h0, ho] at h
    | success =>
      have hP : POST goAddF env s body =
          postAfterInit goAddF (initializeWasm env s).state body := by
        simp [POST, h0, ho]
      rw [hP] at h ⊢
      rw [postAfterInit_state]
      exact postAfterInit_called_ready _ _ _ h
  · have hP : POST goAddF env s body = postAfterInit goAddF s body := by
      simp [POST, h0]
    rw [hP] at h ⊢
    rw [postAfterInit_state]
    exact postAfterInit_called_ready _ _ _ h

/-- C3: every failure of the initialization sequence (file-read errors,
missing `Go` constructor, instantiation error, readiness timeout) leaves
`wasmInstance` null; a background-run rejection nulls it too; and the handler
invokes the exported function only from a state with a non-null instance and
a present `g.goAdd` — no partial state is treated as ready. -/
theorem init_failures_reset_and_ready_guard :
    (∀ (env : InitEnv) (s : Globals) (m : String),
      (initializeWasm env s).outcome = .failure m →
      (initializeWasm env s).state.wasmInstance = none) ∧
    (∀ s : Globals, (runRejectHandler s).wasmInstance = none) ∧
    (∀ (goAddF : JSValue → JSValue → JSValue) (env : InitEnv) (s : Globals)
        (body : RequestBody),
      (POST goAddF env s body).calledGoAdd = true →
      (POST goAddF env s body).state.wasmInstance = some () ∧
      (POST goAddF env s body).state.goAddDefined = true) := by
  refine ⟨?_, fun s => rfl, POST_called_ready⟩
  intro env s m h
  rcases initializeWasm_success_or_reset env s with hs | hs
  · rw [h] at hs
    exact absurd hs (by simp)
  · exact hs

/-- Witness for C3: a failed script read on a fresh process clears the
instance; the run-rejection handler clears it; a successful call ran from a
ready state. -/
theorem init_failures_reset_and_ready_guard_witness :
    (initializeWasm envReadFail freshGlobals).state.wasmInstance = none ∧
    (runRejectHandler readyGlobals).wasmInstance = none ∧
    ((POST goAdd envAllOk readyGlobals (.json (.num 1) (.num 2))).state.wasmInstance = some () ∧
      (POST goAdd envAllOk readyGlobals (.json (.num 1) (.num 2))).state.goAddDefined = true) :=
  ⟨init_failures_reset_and_ready_guard.1 envReadFail freshGlobals
      (initFailPrefix ++ "ENOENT: no such file or directory") (by decide),
   init_failures_reset_and_ready_guard.2.1 readyGlobals,
   init_failures_reset_and_ready_guard.2.2 goAdd envAllOk readyGlobals _ (by decide)⟩

/-! ### Claims about the handler's outcome mapping (C2, C5, C6, C10) -/

/-- C2 fails as stated: the handler only maps result strings starting with
"Invalid" to 400.  Here the exported function returns the module's own error
string "Argument 1 is not a valid integer" (as `add` does when its first
argument reaches it as a non-number), yet the handler responds 200 with that
error string in the `result` field — not 400 with it in `error`. -/
theorem post_errorString_passThrough_counterexample :
    ((fun _ b => add [JSValue.str "x", b]) (JSValue.num 3) (JSValue.num 4) =
      .str "Argument 1 is not a valid integer") ∧
    (POST (fun _ b => add [JSValue.str "x", b]) envAllOk readyGlobals
        (.json (.num 3) (.num 4))).response =
      ⟨200, some (.str "Argument 1 is not a valid integer"), none, none⟩ := by
  exact ⟨by decide, by decide⟩

/-- C2 amended: an error-marked result string is passed through as a 400
`error` field only when it starts with "Invalid" (among the module's error
strings, only "Invalid number of arguments"); moreover the module's own
exported function, called through the handler's numeric validation, never
returns an error string at all, so no success response produced with it can
contain one. -/
theorem post_errorString_invalidPrefix_passThrough :
    (∀ (goAddF : JSValue → JSValue → JSValue) (env : InitEnv) (s : Globals)
        (a b : JSValue) (msg : String),
      s.wasmInstance = some () → s.goAddDefined = true →
      a.isNumber = true → b.isNumber = true →
      goAddF a b = .str msg → strStartsWith msg "Invalid" = true →
      (POST goAddF env s (.json a b)).response = ⟨400, none, some msg, none⟩) ∧
    (∀ a b : JSValue, a.isNumber = true → b.isNumber = true →
      ∃ q : ℚ, goAdd a b = .num q) := by
  constructor
  · intro goAddF env s a b msg hw hg ha hb hres hpre
    simp [POST, postAfterInit, hw, hg, ha, hb, hres, hpre]
  · intro a b ha hb
    cases a with
    | num qa =>
      cases b with
      | num qb =>
        refine ⟨((float64RoundInt
          (wrap64 (satInt64 (ratTrunc qa) + satInt64 (ratTrunc qb))) : Int) : ℚ), ?_⟩
        simp [goAdd, add, toInt_num]
      | str t => simp [JSValue.isNumber] at hb
      | boolean c => simp [JSValue.isNumber] at hb
      | null => simp [JSValue.isNumber] at hb
      | undefined => simp [JSValue.isNumber] at hb
      | object => simp [JSValue.isNumber] at hb
    | str t => simp [JSValue.isNumber] at ha
    | boolean c => simp [JSValue.isNumber] at ha
    | null => simp [JSValue.isNumber] at ha
    | undefined => simp [JSValue.isNumber] at ha
    | object => simp [JSValue.isNumber] at ha

/-- Witness for the amended C2: a call with a wrong argument count produces
"Invalid number of arguments", which the handler passes through as 400; and
the module's function on numeric inputs yields a number. -/
theorem post_errorString_invalidPrefix_passThrough_witness :
    (POST (fun a b => add [a, b, b]) envAllOk readyGlobals
        (.json (.num 1) (.num 2))).response =
      ⟨400, none, some "Invalid number of arguments", none⟩ ∧
    ∃ q : ℚ, goAdd (.num 1) (.num 2) = .num q :=
  ⟨post_errorString_invalidPrefix_passThrough.1 _ envAllOk readyGlobals _ _ _
      rfl rfl rfl rfl (by decide) (by decide),
   post_errorString_invalidPrefix_passThrough.2 _ _ rfl rfl⟩

/-- C5: when the module is ready, a body whose `a` or `b` is not numeric gets
a 400 with the validation message, and the exported function is not invoked
— whatever function `g.goAdd` holds. -/
theorem post_nonNumeric_400_noCall (goAddF : JSValue → JSValue → JSValue)
    (env : InitEnv) (s : Globals) (a b : JSValue)
    (hw : s.wasmInstance = some ()) (hg : s.goAddDefined = true)
    (hab : a.isNumber = false ∨ b.isNumber = false) :
    (POST goAddF env s (.json a b)).response = ⟨400, none, some msg400, none⟩ ∧
    (POST goAddF env s (.json a b)).calledGoAdd = false := by
  rcases hab with h | h <;> simp [POST, postAfterInit, hw, hg, h]

/-- Witness for C5 at the spec's example body a = "hello", b = 7. -/
theorem post_nonNumeric_400_noCall_witness :
    (POST goAdd envAllOk readyGlobals (.json (.str "hello") (.num 7))).response =
      ⟨400, none, some msg400, none⟩ ∧
    (POST goAdd envAllOk readyGlobals (.json (.str "hello") (.num 7))).calledGoAdd = false :=
  post_nonNumeric_400_noCall goAdd envAllOk readyGlobals _ _ rfl rfl (Or.inl rfl)

/-- C6: when the readiness check triggers an initialization attempt, the
attempt returns normally, and the module is still not ready afterwards
(instance null or `g.goAdd` absent), the handler responds 503 with an error
string. -/
theorem post_unready_503 (goAddF : JSValue → JSValue → JSValue) (env : InitEnv)
    (s : Globals) (body : RequestBody)
    (hattempt : s.wasmInstance = none ∨ s.goAddDefined = false)
    (hret : (initializeWasm env s).outcome = .success)
    (hnr : (initializeWasm env s).state.wasmInstance = none ∨
      (initializeWasm env s).state.goAddDefined = false) :
    (POST goAddF env s body).response = ⟨503, none, some msg503, none⟩ := by
  have h0 : (s.wasmInstance.isNone || !s.goAddDefined) = true := by
    rcases hattempt with h | h <;> simp [h]
  have hP : POST goAddF env s body =
      postAfterInit goAddF (initializeWasm env s).state body := by
    simp [POST, h0, hret]
  have h1 : ((initializeWasm env s).state.wasmInstance.isNone
      || !(initializeWasm env s).state.goAddDefined) = true := by
    rcases hnr with h | h <;> simp [h]
  rw [hP]
  simp [postAfterInit, h1]

/-- Witness for C6: an instance is present but `g.goAdd` is missing; the
initialization attempt is skipped (normal return) and the request gets 503. -/
theorem post_unready_503_witness :
    (POST goAdd envAllOk halfGlobals (.json (.num 1) (.num 2))).response =
      ⟨503, none, some msg503, none⟩ :=
  post_unready_503 goAdd envAllOk halfGlobals _ (Or.inr rfl) (by decide) (Or.inr (by decide))

/-- C10: with the module ready, a body that fails to parse lands in the catch
block with a message that does not carry the initialization-failure prefix,
so the handler responds with the generic 500 (error message plus details) —
not with a 400. -/
theorem post_malformedBody_500 (goAddF : JSValue → JSValue → JSValue)
    (env : InitEnv) (s : Globals) (m : String)
    (hw : s.wasmInstance = some ()) (hg : s.goAddDefined = true)
    (hm : strStartsWith m "Wasm初期化失敗:" = false) :
    (POST goAddF env s (.malformed m)).response = ⟨500, none, some msg500Generic, some m⟩ ∧
    (POST goAddF env s (.malformed m)).response.status ≠ 400 := by
  have h : (POST goAddF env s (.malformed m)).response =
      ⟨500, none, some msg500Generic, some m⟩ := by
    simp [POST, postAfterInit, hw, hg, catchResponse, hm]
  refine ⟨h, ?_⟩
  rw [h]
  simp

/-- Witness for C10 at a typical JSON-parse error message. -/
theorem post_malformedBody_500_witness :
    (POST goAdd envAllOk readyGlobals (.malformed "Unexpected end of JSON input")).response =
      ⟨500, none, some msg500Generic, some "Unexpected end of JSON input"⟩ ∧
    (POST goAdd envAllOk readyGlobals
        (.malformed "Unexpected end of JSON input")).response.status ≠ 400 :=
  post_malformedBody_500 goAdd envAllOk readyGlobals "Unexpected end of JSON input"
    rfl rfl (by decide)
